import Mathlib

/-!
Verification of the observable contract of `glm_cli.py`
(`.experiments/claude-glm-test/scripts/glm_cli.py`).

The script:
  1. reads the credential from the environment variable `ZHIPUAI_API_KEY`;
     if it is absent or empty (`if not api_key`), prints a diagnostic to
     stderr and exits with code 1;
  2. reads the whole of standard input as the prompt; if the prompt is
     empty after `str.strip()`, prints a diagnostic to stderr and exits
     with code 1;
  3. issues one streaming chat-completion request for model
     `glm-4-plus` with a single user-role message carrying the raw
     (untrimmed) prompt;
  4. for each streamed chunk, takes its delta content (which may be
     `None` or empty; `if content:` skips both), prints it with no
     newline, and appends it to the local accumulator `full_response`;
  5. after the stream ends, prints one newline and exits with code 0;
  6. any exception during dispatch or streaming is caught, its message
     printed to stderr behind the marker `BŁĄD API GLM: `, and the
     process exits with code 1.

The embedding below is a direct functional transcription of that code.
A run is parametrised by the environment value, the stdin contents, the
list of chunk deltas delivered before the stream either ends or raises,
and an optional error message (`none` means the stream ended normally;
`some msg` means an exception with message `msg` was raised after the
listed chunks were delivered).
-/

namespace GlmCli

/-- The characters removed by Python's `str.strip()`: CPython treats a
character as whitespace when its bidirectional class is WS, B, or S, or
its category is Zs. Concretely that is U+0009-U+000D, U+001C-U+001F,
space, U+0085 (NEL), U+00A0 (NBSP), U+1680, U+2000-U+200A, U+2028,
U+2029, U+202F, U+205F, and U+3000. -/
def pyIsSpace (c : Char) : Bool :=
  (0x09 ≤ c.toNat && c.toNat ≤ 0x0d) ||
  (0x1c ≤ c.toNat && c.toNat ≤ 0x1f) ||
  c.toNat == 0x20 || c.toNat == 0x85 || c.toNat == 0xa0 ||
  c.toNat == 0x1680 ||
  (0x2000 ≤ c.toNat && c.toNat ≤ 0x200a) ||
  c.toNat == 0x2028 || c.toNat == 0x2029 || c.toNat == 0x202f ||
  c.toNat == 0x205f || c.toNat == 0x3000

/-- Python `str.strip()` on the underlying character list: drop leading
whitespace, then trailing whitespace. -/
def pyStrip (l : List Char) : List Char :=
  ((l.dropWhile pyIsSpace).reverse.dropWhile pyIsSpace).reverse

/-- `prompt.strip()` at the `String` level. -/
def stripStr (s : String) : String :=
  String.mk (pyStrip s.data)

/-- The credential check `if not api_key`: fails when the environment
variable is absent (`None`) or its value is the empty string. -/
def credentialOk : Option String → Bool
  | none => false
  | some s => !(s == "")

/-- One streamed response chunk, reduced to `chunk.choices[0].delta.content`:
`none` models an absent delta, `some s` a delta carrying text `s`.
A failure while producing or destructuring a chunk is modelled by the
run's stream-error parameter instead. -/
abbrev Chunk := Option String

/-- One entry of the `messages` array of the request. -/
structure Message where
  role : String
  content : String
deriving DecidableEq

/-- The chat-completion request issued by `client.chat.completions.create`. -/
structure Request where
  model : String
  messages : List Message
  stream : Bool
deriving DecidableEq

/-- Everything observable about one run of the script. `requests` lists
the network requests issued, in order. -/
structure RunResult where
  stdout : String
  stderr : String
  exitCode : Nat
  requests : List Request
deriving DecidableEq

/-- stderr diagnostic for a missing credential (line 11 of the script). -/
def credErrMsg : String := "BŁĄD: Brak zmiennej środowiskowej ZHIPUAI_API_KEY"

/-- stderr diagnostic for a whitespace-only prompt (line 21). -/
def emptyErrMsg : String := "BŁĄD: Pusty prompt"

/-- Marker prefixed to the exception message on the API-error path (line 44). -/
def apiErrPrefix : String := "BŁĄD API GLM: "

/-- The request built at lines 25-31: fixed model `glm-4-plus`, a single
user-role message with the raw prompt, streaming enabled. -/
def glmRequest (prompt : String) : Request :=
  { model := "glm-4-plus"
    messages := [{ role := "user", content := prompt }]
    stream := true }

/-- The `for chunk in response:` loop (lines 35-39), carrying the text
printed so far and the `full_response` accumulator. Returns the pair
(printed text, final accumulator value). `if content:` skips a chunk
whose delta is absent (`none`) or empty. -/
def relay (printed full_response : String) : List Chunk → String × String
  | [] => (printed, full_response)
  | content :: rest =>
    match content with
    | some s =>
      if s == "" then relay printed full_response rest
      else relay (printed ++ s) (full_response ++ s) rest
    | none => relay printed full_response rest

/-- Spec-side description of standard output during streaming: the
concatenation, in arrival order, of the textual deltas of exactly those
chunks whose delta is present and non-empty. -/
def specDeltaConcat (chunks : List Chunk) : String :=
  String.join ((chunks.filterMap id).filter (fun s => !(s == "")))

/-- Total length of the streamed text, the quantity the spec says the
accumulator is for. -/
def totalLen (chunks : List Chunk) : Nat :=
  (specDeltaConcat chunks).length

/-- One whole run of the script, generalised over the initial value of
the `full_response` accumulator (the script uses `""`; the
generalisation lets us state that the accumulator's value never reaches
any observable output). Mirrors, in order: the module-level credential
check (lines 7-12), the prompt read and emptiness check (lines 18-22),
the dispatch (lines 25-31), the relay loop (lines 34-39), the trailing
newline (line 41), and the exception handler (lines 43-45). -/
def runAcc (acc0 : String) (env : Option String) (stdin : String)
    (chunks : List Chunk) (streamErr : Option String) : RunResult :=
  if !credentialOk env then
    { stdout := "", stderr := credErrMsg ++ "\n", exitCode := 1, requests := [] }
  else if stripStr stdin == "" then
    { stdout := "", stderr := emptyErrMsg ++ "\n", exitCode := 1, requests := [] }
  else
    let printed := (relay "" acc0 chunks).1
    match streamErr with
    | none =>
      { stdout := printed ++ "\n", stderr := "", exitCode := 0
        requests := [glmRequest stdin] }
    | some msg =>
      { stdout := printed, stderr := apiErrPrefix ++ msg ++ "\n", exitCode := 1
        requests := [glmRequest stdin] }

/-- A run of the script as written: the accumulator starts at `""`. -/
def run : Option String → String → List Chunk → Option String → RunResult :=
  runAcc ""

/-- Observable operations of one run, in the order the script performs
them. -/
inductive Event where
  | configLoad
  | readStdin
  | netRequest
  | chunkOut (s : String)
  | newlineOut
  | errOut (s : String)
  | exited (c : Nat)
deriving DecidableEq

/-- `Event.exited` recogniser. -/
def isExited : Event → Bool
  | .exited _ => true
  | _ => false

/-- The stdout events of the relay loop: one `chunkOut` per chunk whose
delta is present and non-empty. -/
def chunkEvents : List Chunk → List Event
  | [] => []
  | some s :: rest =>
    (if s == "" then [] else [Event.chunkOut s]) ++ chunkEvents rest
  | none :: rest => chunkEvents rest

/-- The trace of one run: the operations of the script in execution
order, ending in the process exit. -/
def trace (env : Option String) (stdin : String) (chunks : List Chunk)
    (streamErr : Option String) : List Event :=
  Event.configLoad ::
    if !credentialOk env then
      [Event.errOut credErrMsg, Event.exited 1]
    else
      Event.readStdin ::
        if stripStr stdin == "" then
          [Event.errOut emptyErrMsg, Event.exited 1]
        else
          Event.netRequest ::
            (chunkEvents chunks ++
              match streamErr with
              | none => [Event.newlineOut, Event.exited 0]
              | some msg => [Event.errOut (apiErrPrefix ++ msg), Event.exited 1])

/-! ### Basic lemmas about the relay loop and the traces -/

theorem join_cons (a : String) (l : List String) :
    String.join (a :: l) = a ++ String.join l := by
  apply String.ext
  simp [String.join_eq, String.data_append]

theorem specDeltaConcat_nil : specDeltaConcat [] = "" := rfl

theorem specDeltaConcat_cons_none (rest : List Chunk) :
    specDeltaConcat (none :: rest) = specDeltaConcat rest := by
  simp [specDeltaConcat, List.filterMap_cons]

theorem specDeltaConcat_cons_some (s : String) (rest : List Chunk) :
    specDeltaConcat (some s :: rest) =
      (if s == "" then "" else s) ++ specDeltaConcat rest := by
  by_cases h : s == ""
  · simp [specDeltaConcat, List.filterMap_cons, h, String.empty_append]
  · simp only [specDeltaConcat, List.filterMap_cons, id]
    rw [List.filter_cons_of_pos (by simp [h]), join_cons]
    simp [h]

/-- The printed component of the relay loop: whatever was printed before
plus the concatenation of the present, non-empty deltas. -/
theorem relay_fst (chunks : List Chunk) :
    ∀ printed acc, (relay printed acc chunks).1 = printed ++ specDeltaConcat chunks := by
  induction chunks with
  | nil => intro printed acc; simp [relay, specDeltaConcat_nil, String.append_empty]
  | cons c rest ih =>
    intro printed acc
    match c with
    | none => simp [relay, ih, specDeltaConcat_cons_none]
    | some s =>
      by_cases h : s == ""
      · simp [relay, h, ih, specDeltaConcat_cons_some, String.append_empty]
      · simp [relay, h, ih, specDeltaConcat_cons_some, String.append_assoc]

/-- The `full_response` accumulator ends at its initial value followed by
the same concatenation of present, non-empty deltas. -/
theorem relay_snd (chunks : List Chunk) :
    ∀ printed acc, (relay printed acc chunks).2 = acc ++ specDeltaConcat chunks := by
  induction chunks with
  | nil => intro printed acc; simp [relay, specDeltaConcat_nil, String.append_empty]
  | cons c rest ih =>
    intro printed acc
    match c with
    | none => simp [relay, ih, specDeltaConcat_cons_none]
    | some s =>
      by_cases h : s == ""
      · simp [relay, h, ih, specDeltaConcat_cons_some, String.append_empty]
      · simp [relay, h, ih, specDeltaConcat_cons_some, String.append_assoc]

theorem chunkEvents_no_exit (chunks : List Chunk) :
    ∀ e ∈ chunkEvents chunks, isExited e = false := by
  induction chunks with
  | nil => intro e he; simp [chunkEvents] at he
  | cons c rest ih =>
    intro e he
    match c with
    | none => exact ih e he
    | some s =>
      simp only [chunkEvents, List.mem_append] at he
      rcases he with h | h
      · by_cases hs : s == "" <;> simp [hs] at h
        · subst h; rfl
      · exact ih e h

theorem chunkEvents_no_netRequest (chunks : List Chunk) :
    Event.netRequest ∉ chunkEvents chunks := by
  induction chunks with
  | nil => simp [chunkEvents]
  | cons c rest ih =>
    match c with
    | none => simpa [chunkEvents] using ih
    | some s =>
      by_cases hs : s == "" <;> simp [chunkEvents, hs, ih]

/-- All-whitespace input strips to the empty string. -/
theorem stripStr_eq_empty_of_all_space (s : String)
    (h : ∀ c ∈ s.data, pyIsSpace c = true) : stripStr s = "" := by
  have h1 : s.data.dropWhile pyIsSpace = [] :=
    List.dropWhile_eq_nil_iff.mpr h
  apply String.ext
  simp [stripStr, pyStrip, h1]

/-- Shape of the trace when the credential is missing or empty. -/
theorem trace_credFail (env : Option String) (stdin : String)
    (chunks : List Chunk) (streamErr : Option String)
    (hc : credentialOk env = false) :
    trace env stdin chunks streamErr =
      [Event.configLoad, Event.errOut credErrMsg, Event.exited 1] := by
  simp [trace, hc]

/-- Shape of the trace when the prompt strips to the empty string. -/
theorem trace_emptyPrompt (env : Option String) (stdin : String)
    (chunks : List Chunk) (streamErr : Option String)
    (hc : credentialOk env = true) (hp : stripStr stdin = "") :
    trace env stdin chunks streamErr =
      [Event.configLoad, Event.readStdin, Event.errOut emptyErrMsg,
        Event.exited 1] := by
  simp [trace, hc, hp]

/-- Shape of the trace once dispatch is reached. -/
theorem trace_dispatch (env : Option String) (stdin : String)
    (chunks : List Chunk) (streamErr : Option String)
    (hc : credentialOk env = true) (hp : stripStr stdin ≠ "") :
    trace env stdin chunks streamErr =
      Event.configLoad :: Event.readStdin :: Event.netRequest ::
        (chunkEvents chunks ++
          match streamErr with
          | none => [Event.newlineOut, Event.exited 0]
          | some msg => [Event.errOut (apiErrPrefix ++ msg), Event.exited 1]) := by
  simp [trace, hc, hp]

/-! ### The claims -/

/-- C1: for a valid credential and a non-whitespace prompt, if the
stream yields its chunks without error then stdout is the concatenation,
in arrival order, of the deltas of exactly those chunks whose delta is
present and non-empty, followed by exactly one trailing newline. -/
theorem stream_success_stdout (env : Option String) (stdin : String)
    (chunks : List Chunk)
    (hcred : credentialOk env = true) (hp : stripStr stdin ≠ "") :
    (run env stdin chunks none).stdout = specDeltaConcat chunks ++ "\n" := by
  simp [run, runAcc, hcred, hp, relay_fst, String.empty_append]

/-- C1 witness: with credential `"k"`, prompt `"hi"`, and chunk deltas
`["Hel", "lo", "", " world"]`, stdout is exactly `"Hello world\n"`. -/
theorem stream_success_stdout_witness :
    credentialOk (some "k") = true ∧ stripStr "hi" ≠ "" ∧
    (run (some "k") "hi" [some "Hel", some "lo", some "", some " world"]
        none).stdout = "Hello world\n" := by
  refine ⟨rfl, by decide, ?_⟩
  rw [stream_success_stdout (some "k") "hi"
    [some "Hel", some "lo", some "", some " world"] rfl (by decide)]
  decide

/-- C2: if the stream raises after some chunks were emitted, stdout
keeps exactly what was already written (no rollback), stderr is one line
made of the API-error marker followed by the error message, and the exit
code is 1. -/
theorem api_error_behaviour (env : Option String) (stdin : String)
    (chunks : List Chunk) (msg : String)
    (hcred : credentialOk env = true) (hp : stripStr stdin ≠ "") :
    (run env stdin chunks (some msg)).stdout = specDeltaConcat chunks ∧
    (run env stdin chunks (some msg)).stderr = apiErrPrefix ++ msg ++ "\n" ∧
    (run env stdin chunks (some msg)).exitCode = 1 := by
  simp [run, runAcc, hcred, hp, relay_fst, String.empty_append]

/-- C2 witness: after the single chunk `"Hel"` the failure leaves
`"Hel"` on stdout, puts the marked message on stderr, and exits 1. -/
theorem api_error_behaviour_witness :
    credentialOk (some "k") = true ∧ stripStr "hi" ≠ "" ∧
    (run (some "k") "hi" [some "Hel"] (some "boom")).stdout = "Hel" ∧
    (run (some "k") "hi" [some "Hel"] (some "boom")).stderr
      = "BŁĄD API GLM: boom\n" ∧
    (run (some "k") "hi" [some "Hel"] (some "boom")).exitCode = 1 := by
  have h := api_error_behaviour (some "k") "hi" [some "Hel"] "boom" rfl (by decide)
  refine ⟨rfl, by decide, ?_, ?_, h.2.2⟩
  · rw [h.1]; decide
  · rw [h.2.1]; decide

/-- C3: if the credential environment variable is absent or empty, the
run puts the credential-missing diagnostic on stderr, exits with code 1,
and issues no network request. -/
theorem missing_credential (env : Option String) (stdin : String)
    (chunks : List Chunk) (streamErr : Option String)
    (h : env = none ∨ env = some "") :
    (run env stdin chunks streamErr).stderr = credErrMsg ++ "\n" ∧
    (run env stdin chunks streamErr).exitCode = 1 ∧
    (run env stdin chunks streamErr).requests = [] := by
  have hc : credentialOk env = false := by rcases h with h | h <;> subst h <;> rfl
  simp [run, runAcc, hc]

/-- C3 witness: an absent credential with prompt `"x"` gives the
credential diagnostic, exit code 1, and no request. -/
theorem missing_credential_witness :
    ((none : Option String) = none ∨ (none : Option String) = some "") ∧
    (run none "x" [] none).stderr = credErrMsg ++ "\n" ∧
    (run none "x" [] none).exitCode = 1 ∧
    (run none "x" [] none).requests = [] :=
  ⟨Or.inl rfl, missing_credential none "x" [] none (Or.inl rfl)⟩

/-- C4: with a present credential, any stdin made only of whitespace
(including the empty string) gives the empty-prompt diagnostic on
stderr, exit code 1, and no network request. -/
theorem whitespace_prompt (env : Option String) (stdin : String)
    (chunks : List Chunk) (streamErr : Option String)
    (hcred : credentialOk env = true)
    (hws : ∀ c ∈ stdin.data, pyIsSpace c = true) :
    (run env stdin chunks streamErr).stderr = emptyErrMsg ++ "\n" ∧
    (run env stdin chunks streamErr).exitCode = 1 ∧
    (run env stdin chunks streamErr).requests = [] := by
  have hs : stripStr stdin = "" := stripStr_eq_empty_of_all_space stdin hws
  simp [run, runAcc, hcred, hs]

/-- C4 witness: a stdin of a no-break space, a file separator, a plain
space, and a tab — all stripped by Python — gives the empty-prompt
diagnostic, exit code 1, and no request. -/
theorem whitespace_prompt_witness :
    credentialOk (some "k") = true ∧
    (∀ c ∈ ("\u00A0\u001C \t" : String).data, pyIsSpace c = true) ∧
    (run (some "k") "\u00A0\u001C \t" [] none).stderr = emptyErrMsg ++ "\n" ∧
    (run (some "k") "\u00A0\u001C \t" [] none).exitCode = 1 ∧
    (run (some "k") "\u00A0\u001C \t" [] none).requests = [] :=
  ⟨rfl, by decide,
    whitespace_prompt (some "k") "\u00A0\u001C \t" [] none rfl (by decide)⟩

/-- C5: every run that reaches dispatch issues exactly one request,
naming model `glm-4-plus`, with streaming enabled, and with exactly one
message of role `user` whose content is the raw untrimmed stdin text. -/
theorem dispatch_request (env : Option String) (stdin : String)
    (chunks : List Chunk) (streamErr : Option String)
    (hcred : credentialOk env = true) (hp : stripStr stdin ≠ "") :
    (run env stdin chunks streamErr).requests =
      [{ model := "glm-4-plus"
         messages := [{ role := "user", content := stdin }]
         stream := true }] := by
  cases streamErr <;> simp [run, runAcc, hcred, hp, glmRequest]

/-- C5 witness: the run on prompt `"  hi  "` issues exactly one
streaming request for `glm-4-plus` whose sole user message carries the
untrimmed prompt. -/
theorem dispatch_request_witness :
    credentialOk (some "k") = true ∧ stripStr "  hi  " ≠ "" ∧
    (run (some "k") "  hi  " [] none).requests =
      [{ model := "glm-4-plus"
         messages := [{ role := "user", content := "  hi  " }]
         stream := true }] :=
  ⟨rfl, by decide, dispatch_request (some "k") "  hi  " [] none rfl (by decide)⟩

/-- C6: the exit code is always 0 or 1, and it is 0 exactly when the run
fully succeeds (valid credential, non-whitespace prompt, stream consumed
to the end without error); all three failure categories share code 1. -/
theorem exit_code_classification (env : Option String) (stdin : String)
    (chunks : List Chunk) (streamErr : Option String) :
    ((run env stdin chunks streamErr).exitCode = 0 ∨
      (run env stdin chunks streamErr).exitCode = 1) ∧
    ((run env stdin chunks streamErr).exitCode = 0 ↔
      (credentialOk env = true ∧ stripStr stdin ≠ "" ∧ streamErr = none)) := by
  cases hc : credentialOk env
  · simp [run, runAcc, hc]
  · by_cases hp : stripStr stdin = ""
    · simp [run, runAcc, hc, hp]
    · cases streamErr <;> simp [run, runAcc, hc, hp]

/-- C6 witness: the concrete success run exits 0, and the run on a
prompt consisting of one no-break space (whitespace to Python's
`strip()`) exits 1. -/
theorem exit_code_classification_witness :
    (run (some "k") "hi" [] none).exitCode = 0 ∧
    (run (some "k") "\u00A0" [] none).exitCode = 1 := by
  constructor
  · exact (exit_code_classification (some "k") "hi" [] none).2.mpr
      ⟨rfl, by decide, rfl⟩
  · have h := exit_code_classification (some "k") "\u00A0" [] none
    rcases h.1 with h0 | h1
    · exact absurd ((h.2.mp h0).2.1) (by simp; decide)
    · exact h1

/-- C7: two runs with the same environment, the same stdin, and the same
deterministic response stream produce identical stdout and the same exit
code. -/
theorem deterministic_runs (envA envB : Option String) (stdinA stdinB : String)
    (chunksA chunksB : List Chunk) (errA errB : Option String)
    (henv : envA = envB) (hin : stdinA = stdinB)
    (hch : chunksA = chunksB) (herr : errA = errB) :
    (run envA stdinA chunksA errA).stdout
        = (run envB stdinB chunksB errB).stdout ∧
    (run envA stdinA chunksA errA).exitCode
        = (run envB stdinB chunksB errB).exitCode := by
  subst henv; subst hin; subst hch; subst herr
  exact ⟨rfl, rfl⟩

/-- C7 witness: the determinism theorem at one concrete repeated run. -/
theorem deterministic_runs_witness :
    (run (some "k") "hi" [some "a"] none).stdout
        = (run (some "k") "hi" [some "a"] none).stdout ∧
    (run (some "k") "hi" [some "a"] none).exitCode
        = (run (some "k") "hi" [some "a"] none).exitCode :=
  deterministic_runs (some "k") (some "k") "hi" "hi" [some "a"] [some "a"]
    none none rfl rfl rfl rfl

/-- C8: every trace starts with the configuration load, ends in a single
exit event preceded by no other exit (no recovery, no retry after a
failure); a missing or empty credential means stdin is never read; a
whitespace-only prompt means no network request is made; and whenever a
network request happens it is the unique one and follows configuration
load and prompt read in that fixed order. -/
theorem trace_state_machine (env : Option String) (stdin : String)
    (chunks : List Chunk) (streamErr : Option String) :
    (trace env stdin chunks streamErr).head? = some Event.configLoad ∧
    (∃ body c, trace env stdin chunks streamErr = body ++ [Event.exited c] ∧
      ∀ e ∈ body, isExited e = false) ∧
    ((env = none ∨ env = some "") →
      Event.readStdin ∉ trace env stdin chunks streamErr) ∧
    (stripStr stdin = "" →
      Event.netRequest ∉ trace env stdin chunks streamErr) ∧
    (Event.netRequest ∈ trace env stdin chunks streamErr →
      ∃ t, trace env stdin chunks streamErr =
        Event.configLoad :: Event.readStdin :: Event.netRequest :: t ∧
        Event.netRequest ∉ t) := by
  cases hc : credentialOk env with
  | false =>
    rw [trace_credFail env stdin chunks streamErr hc]
    refine ⟨rfl, ⟨[Event.configLoad, Event.errOut credErrMsg], 1, rfl, ?_⟩,
      fun _ => by simp, fun _ => by simp, fun hmem => by simp at hmem⟩
    intro e he
    simp only [List.mem_cons, List.mem_singleton] at he
    rcases he with h | h | h <;> first | (subst h; rfl) | simp at h
  | true =>
    by_cases hp : stripStr stdin = ""
    · rw [trace_emptyPrompt env stdin chunks streamErr hc hp]
      refine ⟨rfl,
        ⟨[Event.configLoad, Event.readStdin, Event.errOut emptyErrMsg], 1,
          rfl, ?_⟩,
        fun h => ?_, fun _ => by simp, fun hmem => by simp at hmem⟩
      · intro e he
        simp only [List.mem_cons, List.mem_singleton] at he
        rcases he with h | h | h | h <;> first | (subst h; rfl) | simp at h
      · have : credentialOk env = false := by
          rcases h with h | h <;> subst h <;> rfl
        rw [hc] at this; exact absurd this (by simp)
    · rw [trace_dispatch env stdin chunks streamErr hc hp]
      cases streamErr with
      | none =>
        refine ⟨rfl,
          ⟨Event.configLoad :: Event.readStdin :: Event.netRequest ::
              (chunkEvents chunks ++ [Event.newlineOut]), 0, by simp, ?_⟩,
          fun h => ?_, fun h => absurd h hp, fun _ => ?_⟩
        · intro e he
          simp only [List.mem_cons, List.mem_append, List.mem_singleton] at he
          rcases he with h | h | h | h | h
          · subst h; rfl
          · subst h; rfl
          · subst h; rfl
          · exact chunkEvents_no_exit chunks e h
          · rcases h with h | h
            · subst h; rfl
            · simp at h
        · have : credentialOk env = false := by
            rcases h with h | h <;> subst h <;> rfl
          rw [hc] at this; exact absurd this (by simp)
        · refine ⟨chunkEvents chunks ++ [Event.newlineOut, Event.exited 0],
            rfl, ?_⟩
          simp [chunkEvents_no_netRequest chunks]
      | some msg =>
        refine ⟨rfl,
          ⟨Event.configLoad :: Event.readStdin :: Event.netRequest ::
              (chunkEvents chunks ++ [Event.errOut (apiErrPrefix ++ msg)]), 1,
            by simp, ?_⟩,
          fun h => ?_, fun h => absurd h hp, fun _ => ?_⟩
        · intro e he
          simp only [List.mem_cons, List.mem_append, List.mem_singleton] at he
          rcases he with h | h | h | h | h
          · subst h; rfl
          · subst h; rfl
          · subst h; rfl
          · exact chunkEvents_no_exit chunks e h
          · rcases h with h | h
            · subst h; rfl
            · simp at h
        · have : credentialOk env = false := by
            rcases h with h | h <;> subst h <;> rfl
          rw [hc] at this; exact absurd this (by simp)
        · refine ⟨chunkEvents chunks ++
            [Event.errOut (apiErrPrefix ++ msg), Event.exited 1], rfl, ?_⟩
          simp [chunkEvents_no_netRequest chunks]

/-- C8 witness: with a missing credential stdin is never read, and with
a whitespace-only prompt (here a no-break space and a file separator,
both stripped by Python) no network request appears in the trace. -/
theorem trace_state_machine_witness :
    ((none : Option String) = none ∨ (none : Option String) = some "") ∧
    Event.readStdin ∉ trace none "hi" [] none ∧
    stripStr "\u00A0\u001C" = "" ∧
    Event.netRequest ∉ trace (some "k") "\u00A0\u001C" [] none := by
  refine ⟨Or.inl rfl, ?_, by decide, ?_⟩
  · exact (trace_state_machine none "hi" [] none).2.2.1 (Or.inl rfl)
  · exact (trace_state_machine (some "k") "\u00A0\u001C" [] none).2.2.2.1
      (by decide)

/-- The final value of the `full_response` accumulator of a run that
starts it at `""`, as the script does. -/
def fullResponseOf (chunks : List Chunk) : String :=
  (relay "" "" chunks).2

/-- C9 counterexample: the accumulator does not hold the total length of
the streamed text — two streams of equal total length leave different
accumulator values, because `full_response` stores the full concatenated
text. -/
theorem accumulator_not_length_cex :
    totalLen [some "ab"] = totalLen [some "ba"] ∧
    fullResponseOf [some "ab"] ≠ fullResponseOf [some "ba"] := by
  exact ⟨rfl, by decide⟩

/-- C9 amended: the only buffering of response content is the
`full_response` accumulator, which holds the concatenation of the
present, non-empty deltas (the full response text, from which the total
length is derivable); it is not otherwise used — every observable output
of the run (stdout, stderr, exit code, requests) is unchanged under any
change of the accumulator's value. -/
theorem accumulator_holds_text_and_has_no_effect (accA accB : String)
    (env : Option String) (stdin : String) (chunks : List Chunk)
    (streamErr : Option String) :
    runAcc accA env stdin chunks streamErr
        = runAcc accB env stdin chunks streamErr ∧
    (relay "" accA chunks).2 = accA ++ specDeltaConcat chunks := by
  refine ⟨?_, relay_snd chunks "" accA⟩
  cases hc : credentialOk env
  · simp [runAcc, hc]
  · by_cases hp : stripStr stdin = ""
    · simp [runAcc, hc, hp]
    · cases streamErr <;> simp [runAcc, hc, hp, relay_fst]

/-- C10: when the stream raises, the trailing newline is never written:
stdout is exactly the deltas emitted before the failure and differs from
the newline-terminated form. -/
theorem error_no_trailing_newline (env : Option String) (stdin : String)
    (chunks : List Chunk) (msg : String)
    (hcred : credentialOk env = true) (hp : stripStr stdin ≠ "") :
    (run env stdin chunks (some msg)).stdout = specDeltaConcat chunks ∧
    (run env stdin chunks (some msg)).stdout ≠ specDeltaConcat chunks ++ "\n" := by
  have h1 : (run env stdin chunks (some msg)).stdout = specDeltaConcat chunks := by
    simp [run, runAcc, hcred, hp, relay_fst, String.empty_append]
  refine ⟨h1, ?_⟩
  rw [h1]
  intro h
  have hlen := congrArg String.length h
  rw [String.length_append] at hlen
  have hnl : ("\n" : String).length = 1 := rfl
  rw [hnl] at hlen
  omega

/-- C10 witness: a failure after chunk `"Hel"` leaves stdout at exactly
`"Hel"`, with no trailing newline. -/
theorem error_no_trailing_newline_witness :
    credentialOk (some "k") = true ∧ stripStr "hi" ≠ "" ∧
    (run (some "k") "hi" [some "Hel"] (some "boom")).stdout = "Hel" ∧
    (run (some "k") "hi" [some "Hel"] (some "boom")).stdout ≠ "Hel\n" := by
  have h := error_no_trailing_newline (some "k") "hi" [some "Hel"] "boom"
    rfl (by decide)
  refine ⟨rfl, by decide, ?_, ?_⟩
  · rw [h.1]; decide
  · intro hbad
    exact h.2 (by rw [hbad]; decide)

end GlmCli
